import Mathlib

/-! Verification of the polygon-operations geometry kernel
(`polygon_operations.c`): a shallow embedding of its functions over exact
rational coordinates (the C code computes on IEEE doubles; the algorithms
are algebraic, and we model them over `ℚ`, with `ℝ` and `Real.sqrt` only
where the code calls `sqrt`).  Output-pointer parameters are modelled by
explicit state passing: a function that may write through a slot takes the
slot's prior value and returns its new value.
-/

namespace PolygonOps

/-- The short-circuited first conjunct of the ray-casting crossing test:
`(yi > y) != (yj > y)` from `is_point_in_polygon`. -/
def crossing_guard (y yi yj : ℚ) : Bool :=
  decide (yi > y) != decide (yj > y)

/-- The full crossing test for one edge, from the loop body of
`is_point_in_polygon`:
`((yi > y) != (yj > y)) && (x < (xj - xi) * (y - yi) / (yj - yi) + xi)`. -/
def crossing_test (x y xi yi xj yj : ℚ) : Bool :=
  crossing_guard y yi yj && decide (x < (xj - xi) * (y - yi) / (yj - yi) + xi)

/-- Whether edge number `i` of the polygon (from vertex `j` to vertex `i`,
where `j = length - 1` when `i = 0` and `j = i - 1` otherwise, exactly as the
loop header `for (int i = 0, j = length - 1; i < length; j = i++)` pairs
them) passes the crossing test for the query point `(x, y)`. -/
def edge_crossed (x y : ℚ) (points : List (ℚ × ℚ)) (i : ℕ) : Bool :=
  let j := if i = 0 then points.length - 1 else i - 1
  let pti := points.getD i (0, 0)
  let ptj := points.getD j (0, 0)
  crossing_test x y pti.1 pti.2 ptj.1 ptj.2

/-- Model of `is_point_in_polygon`: even-odd ray casting; the loop toggles `inside`
once per edge whose crossing test holds. -/
def is_point_in_polygon (x y : ℚ) (points : List (ℚ × ℚ)) : Bool :=
  (List.range points.length).foldl
    (fun inside i => if edge_crossed x y points i then !inside else inside)
    false

/-- Model of `distance_to_segment`: distance from `(px, py)` to the closed segment
from `(vx, vy)` to `(wx, wy)`.  All intermediate arithmetic is rational;
only the final `sqrt` lands in `ℝ`. -/
noncomputable def distance_to_segment (px py vx vy wx wy : ℚ) : ℝ :=
  let l2 := (vx - wx) ^ 2 + (vy - wy) ^ 2
  if l2 = 0 then
    Real.sqrt (((px - vx) ^ 2 + (py - vy) ^ 2 : ℚ))
  else
    let t := ((px - vx) * (wx - vx) + (py - vy) * (wy - vy)) / l2
    if t < 0 then
      Real.sqrt (((px - vx) ^ 2 + (py - vy) ^ 2 : ℚ))
    else if t > 1 then
      Real.sqrt (((px - wx) ^ 2 + (py - wy) ^ 2 : ℚ))
    else
      let projx := vx + t * (wx - vx)
      let projy := vy + t * (wy - vy)
      Real.sqrt (((px - projx) ^ 2 + (py - projy) ^ 2 : ℚ))

/-- Model of `calculate_intersection`: segment-segment intersection via Cramer's
rule.  The C function returns an `int` flag and writes through `double*`
slots `ix`, `iy`; we pass the slots' prior values `ix0`, `iy0` and return
`(flag, ix, iy)`. -/
def calculate_intersection
    (p1x p1y p2x p2y p3x p3y p4x p4y ix0 iy0 : ℚ) : ℤ × ℚ × ℚ :=
  let a1 := p2y - p1y
  let b1 := p1x - p2x
  let c1 := a1 * p1x + b1 * p1y
  let a2 := p4y - p3y
  let b2 := p3x - p4x
  let c2 := a2 * p3x + b2 * p3y
  let determinant := a1 * b2 - a2 * b1
  if determinant = 0 then
    (0, ix0, iy0)
  else
    let ix := (b2 * c1 - b1 * c2) / determinant
    let iy := (a1 * c2 - a2 * c1) / determinant
    if (min p1x p2x ≤ ix ∧ ix ≤ max p1x p2x ∧
        min p1y p2y ≤ iy ∧ iy ≤ max p1y p2y) ∧
       (min p3x p4x ≤ ix ∧ ix ≤ max p3x p4x ∧
        min p3y p4y ≤ iy ∧ iy ≤ max p3y p4y) then
      (1, ix, iy)
    else
      (0, ix, iy)

/-- Model of `calculate_polygon_area`: shoelace sum over edges `i → (i+1) % length`,
then `fabs(area / 2)`. -/
def calculate_polygon_area (points : List (ℚ × ℚ)) : ℚ :=
  |((List.range points.length).foldl
      (fun area i =>
        let j := (i + 1) % points.length
        let pti := points.getD i (0, 0)
        let ptj := points.getD j (0, 0)
        area + pti.1 * ptj.2 - ptj.1 * pti.2)
      0) / 2|

/-- Model of `calculate_polygon_perimeter`: sum of Euclidean edge lengths over edges
`i → (i+1) % length`. -/
noncomputable def calculate_polygon_perimeter (points : List (ℚ × ℚ)) : ℝ :=
  (List.range points.length).foldl
    (fun perimeter i =>
      let j := (i + 1) % points.length
      let pti := points.getD i (0, 0)
      let ptj := points.getD j (0, 0)
      perimeter + Real.sqrt (((ptj.1 - pti.1) ^ 2 + (ptj.2 - pti.2) ^ 2 : ℚ)))
    0

/-- Model of `calculate_bounding_box`: writes `(minX, minY, maxX, maxY)` through four
output slots; modelled as returning the four written values.  Length `0`
writes `(0, 0, 0, 0)`; otherwise it seeds all four from `points[0]` and
folds the `if (<) / if (>)` updates over the remaining vertices. -/
def calculate_bounding_box (points : List (ℚ × ℚ)) : ℚ × ℚ × ℚ × ℚ :=
  match points with
  | [] => (0, 0, 0, 0)
  | p0 :: rest =>
    rest.foldl
      (fun b p =>
        let mnx := if p.1 < b.1 then p.1 else b.1
        let mny := if p.2 < b.2.1 then p.2 else b.2.1
        let mxx := if p.1 > b.2.2.1 then p.1 else b.2.2.1
        let mxy := if p.2 > b.2.2.2 then p.2 else b.2.2.2
        (mnx, mny, mxx, mxy))
      (p0.1, p0.2, p0.1, p0.2)

/-- Model of `do_polygons_intersect`: three-stage OR.  The C code calls
`calculate_intersection` with uninitialized stack slots for `ix`, `iy` and
only tests the returned flag (C truthiness: nonzero); we pass `0, 0` for
the slots, on which the flag does not depend. -/
def do_polygons_intersect (poly1 poly2 : List (ℚ × ℚ)) : Bool :=
  ((List.range poly1.length).any fun i =>
    let p := poly1.getD i (0, 0)
    is_point_in_polygon p.1 p.2 poly2) ||
  ((List.range poly2.length).any fun i =>
    let p := poly2.getD i (0, 0)
    is_point_in_polygon p.1 p.2 poly1) ||
  ((List.range poly1.length).any fun i =>
    let j := (i + 1) % poly1.length
    let a := poly1.getD i (0, 0)
    let b := poly1.getD j (0, 0)
    (List.range poly2.length).any fun k =>
      let l := (k + 1) % poly2.length
      let c := poly2.getD k (0, 0)
      let d := poly2.getD l (0, 0)
      decide ((calculate_intersection a.1 a.2 b.1 b.2 c.1 c.2 d.1 d.2 0 0).1 ≠ 0))

/-- Model of `set_point`: writes `points[index].x = x; points[index].y = y`.
Modelled as replacing the pair at `index` (out of range leaves the list
unchanged, standing in for the C contract's trusted-caller precondition). -/
def set_point (points : List (ℚ × ℚ)) (index : ℕ) (x y : ℚ) : List (ℚ × ℚ) :=
  points.set index (x, y)

/-- Writing the logical point sequence `ps` into buffer `buf` at indices
`0 .. ps.length - 1` via `set_point`.  `create_point_array N` (a bare
`malloc`) yields a buffer of `N` uninitialized points; it is modelled by
quantifying over an arbitrary initial list `buf` of length `N`. -/
def write_points (buf ps : List (ℚ × ℚ)) : List (ℚ × ℚ) :=
  (List.range ps.length).foldl
    (fun b i =>
      let p := ps.getD i (0, 0)
      set_point b i p.1 p.2)
    buf

/-- Folding a toggle-on-predicate step over a list computes the parity of
the number of elements satisfying the predicate. -/
lemma foldl_toggle (p : ℕ → Bool) (l : List ℕ) (b : Bool) :
    l.foldl (fun acc i => if p i then !acc else acc) b
      = (b != decide (Odd (l.countP p))) := by
  induction l generalizing b with
  | nil => simp
  | cons a t ih =>
    simp only [List.foldl_cons, List.countP_cons]
    cases hpa : p a with
    | false => simp [hpa, ih]
    | true =>
      simp only [hpa, if_pos, ih (!b), Nat.add_comm, Nat.odd_add_one, decide_not]
      cases b <;> cases hodd : decide (Odd (t.countP p)) <;> simp [hodd]

/-- C4: `is_point_in_polygon` returns true exactly when the number of edges
whose strict-inequality crossing test holds (applied uniformly to every
edge, with no epsilon) is odd; the point (2,2) is inside the square
(0,0),(4,0),(4,4),(0,4) and (10,10) is outside. -/
theorem C4_point_in_polygon_parity :
    (∀ (x y : ℚ) (pts : List (ℚ × ℚ)),
      is_point_in_polygon x y pts = true ↔
        Odd ((List.range pts.length).countP (edge_crossed x y pts))) ∧
    is_point_in_polygon 2 2 [(0,0),(4,0),(4,4),(0,4)] = true ∧
    is_point_in_polygon 10 10 [(0,0),(4,0),(4,4),(0,4)] = false := by
  refine ⟨?_, ?_, ?_⟩
  · intro x y pts
    rw [is_point_in_polygon, foldl_toggle]
    simp
  · simp [is_point_in_polygon, edge_crossed, crossing_test, crossing_guard,
      List.range_succ]
    norm_num
  · simp [is_point_in_polygon, edge_crossed, crossing_test, crossing_guard,
      List.range_succ]
    norm_num

/-- C7: every aggregate on the zero-vertex polygon returns its sentinel:
area 0, perimeter 0, bounding box (0,0,0,0), and point-in-polygon false for
every query point. -/
theorem C7_zero_vertex_sentinels :
    calculate_polygon_area [] = 0 ∧
    calculate_polygon_perimeter [] = 0 ∧
    calculate_bounding_box [] = (0, 0, 0, 0) ∧
    ∀ x y : ℚ, is_point_in_polygon x y [] = false := by
  refine ⟨?_, ?_, rfl, fun x y => rfl⟩
  · simp [calculate_polygon_area]
  · simp [calculate_polygon_perimeter]

/-- C10: the crossing test's division by `yj - yi` sits behind the
short-circuited guard `(yi > y) != (yj > y)`: when the guard is false the
test is false without consulting the division, and when the guard is true
the divisor `yj - yi` is nonzero, so the division-by-zero branch is
unreachable. -/
theorem C10_crossing_divisor_nonzero :
    ∀ x y xi yi xj yj : ℚ,
      (crossing_guard y yi yj = false → crossing_test x y xi yi xj yj = false) ∧
      (crossing_guard y yi yj = true → yj - yi ≠ 0) := by
  intro x y xi yi xj yj
  constructor
  · intro h
    simp [crossing_test, h]
  · intro h hzero
    have hyy : yj = yi := by linarith [sub_eq_zero.mp hzero]
    rw [crossing_guard, hyy] at h
    simp at h

/-- Witness for C10 at `y = 1`, `yi = 0`, `yj = 3`. -/
theorem C10_witness : (3 : ℚ) - 0 ≠ 0 :=
  (C10_crossing_divisor_nonzero 0 1 0 0 0 3).2 (by norm_num [crossing_guard])

/-- C1: `calculate_intersection` returns flag 1 together with the
Cramer's-rule solution of the two implicit line equations exactly when the
determinant `a1*b2 - a2*b1` is nonzero and that solution lies within both
segments' axis-aligned coordinate ranges (inclusive bounds in x and y);
when the determinant is 0 it returns flag 0.  Concretely,
((0,0),(10,10)) vs ((0,10),(10,0)) gives flag 1 at (5,5), and the parallel
pair ((0,0),(10,0)) vs ((0,1),(10,1)) gives flag 0. -/
theorem C1_calculate_intersection_spec :
    (∀ p1x p1y p2x p2y p3x p3y p4x p4y ix0 iy0 : ℚ,
      ((calculate_intersection p1x p1y p2x p2y p3x p3y p4x p4y ix0 iy0).1 = 1 ∧
       (calculate_intersection p1x p1y p2x p2y p3x p3y p4x p4y ix0 iy0).2.1 =
         ((p3x - p4x) * ((p2y - p1y) * p1x + (p1x - p2x) * p1y) -
          (p1x - p2x) * ((p4y - p3y) * p3x + (p3x - p4x) * p3y)) /
         ((p2y - p1y) * (p3x - p4x) - (p4y - p3y) * (p1x - p2x)) ∧
       (calculate_intersection p1x p1y p2x p2y p3x p3y p4x p4y ix0 iy0).2.2 =
         ((p2y - p1y) * ((p4y - p3y) * p3x + (p3x - p4x) * p3y) -
          (p4y - p3y) * ((p2y - p1y) * p1x + (p1x - p2x) * p1y)) /
         ((p2y - p1y) * (p3x - p4x) - (p4y - p3y) * (p1x - p2x)))
      ↔
      ((p2y - p1y) * (p3x - p4x) - (p4y - p3y) * (p1x - p2x) ≠ 0 ∧
       (min p1x p2x ≤
          ((p3x - p4x) * ((p2y - p1y) * p1x + (p1x - p2x) * p1y) -
           (p1x - p2x) * ((p4y - p3y) * p3x + (p3x - p4x) * p3y)) /
          ((p2y - p1y) * (p3x - p4x) - (p4y - p3y) * (p1x - p2x)) ∧
        ((p3x - p4x) * ((p2y - p1y) * p1x + (p1x - p2x) * p1y) -
         (p1x - p2x) * ((p4y - p3y) * p3x + (p3x - p4x) * p3y)) /
        ((p2y - p1y) * (p3x - p4x) - (p4y - p3y) * (p1x - p2x)) ≤ max p1x p2x ∧
        min p1y p2y ≤
          ((p2y - p1y) * ((p4y - p3y) * p3x + (p3x - p4x) * p3y) -
           (p4y - p3y) * ((p2y - p1y) * p1x + (p1x - p2x) * p1y)) /
          ((p2y - p1y) * (p3x - p4x) - (p4y - p3y) * (p1x - p2x)) ∧
        ((p2y - p1y) * ((p4y - p3y) * p3x + (p3x - p4x) * p3y) -
         (p4y - p3y) * ((p2y - p1y) * p1x + (p1x - p2x) * p1y)) /
        ((p2y - p1y) * (p3x - p4x) - (p4y - p3y) * (p1x - p2x)) ≤ max p1y p2y) ∧
       (min p3x p4x ≤
          ((p3x - p4x) * ((p2y - p1y) * p1x + (p1x - p2x) * p1y) -
           (p1x - p2x) * ((p4y - p3y) * p3x + (p3x - p4x) * p3y)) /
          ((p2y - p1y) * (p3x - p4x) - (p4y - p3y) * (p1x - p2x)) ∧
        ((p3x - p4x) * ((p2y - p1y) * p1x + (p1x - p2x) * p1y) -
         (p1x - p2x) * ((p4y - p3y) * p3x + (p3x - p4x) * p3y)) /
        ((p2y - p1y) * (p3x - p4x) - (p4y - p3y) * (p1x - p2x)) ≤ max p3x p4x ∧
        min p3y p4y ≤
          ((p2y - p1y) * ((p4y - p3y) * p3x + (p3x - p4x) * p3y) -
           (p4y - p3y) * ((p2y - p1y) * p1x + (p1x - p2x) * p1y)) /
          ((p2y - p1y) * (p3x - p4x) - (p4y - p3y) * (p1x - p2x)) ∧
        ((p2y - p1y) * ((p4y - p3y) * p3x + (p3x - p4x) * p3y) -
         (p4y - p3y) * ((p2y - p1y) * p1x + (p1x - p2x) * p1y)) /
        ((p2y - p1y) * (p3x - p4x) - (p4y - p3y) * (p1x - p2x)) ≤ max p3y p4y))) ∧
    (∀ p1x p1y p2x p2y p3x p3y p4x p4y ix0 iy0 : ℚ,
      (p2y - p1y) * (p3x - p4x) - (p4y - p3y) * (p1x - p2x) = 0 →
      (calculate_intersection p1x p1y p2x p2y p3x p3y p4x p4y ix0 iy0).1 = 0) ∧
    calculate_intersection 0 0 10 10 0 10 10 0 0 0 = (1, 5, 5) ∧
    (calculate_intersection 0 0 10 0 0 1 10 1 0 0).1 = 0 := by
  refine ⟨?_, ?_, ?_, ?_⟩
  · intro p1x p1y p2x p2y p3x p3y p4x p4y ix0 iy0
    simp only [calculate_intersection]
    split_ifs with hdet hrange
    · simp [hdet]
    · simp [hdet, hrange.1, hrange.2]
    · refine iff_of_false ?_ ?_
      · rintro ⟨h1, -, -⟩
        exact absurd (show (0 : ℤ) = 1 from h1) (by decide)
      · rintro ⟨-, ha, hb⟩
        exact hrange ⟨ha, hb⟩
  · intro p1x p1y p2x p2y p3x p3y p4x p4y ix0 iy0 hdet
    simp [calculate_intersection, hdet]
  · norm_num [calculate_intersection]
  · norm_num [calculate_intersection]

/-- Witness for C1's parallel-case implication at concrete inputs. -/
theorem C1_witness : (calculate_intersection 0 0 10 0 0 2 10 2 7 9).1 = 0 :=
  C1_calculate_intersection_spec.2.1 0 0 10 0 0 2 10 2 7 9 (by norm_num)

/-- C9: `calculate_intersection` writes through its two output slots exactly
when the determinant is nonzero: for determinant 0 it returns flag 0 with
both slots unchanged, and for nonzero determinant both slots hold the
line-intersection coordinates even when the flag is 0 because the range
check failed. -/
theorem C9_output_slot_frame :
    ∀ p1x p1y p2x p2y p3x p3y p4x p4y ix0 iy0 : ℚ,
      ((p2y - p1y) * (p3x - p4x) - (p4y - p3y) * (p1x - p2x) = 0 →
        calculate_intersection p1x p1y p2x p2y p3x p3y p4x p4y ix0 iy0 =
          (0, ix0, iy0)) ∧
      ((p2y - p1y) * (p3x - p4x) - (p4y - p3y) * (p1x - p2x) ≠ 0 →
        (calculate_intersection p1x p1y p2x p2y p3x p3y p4x p4y ix0 iy0).2.1 =
          ((p3x - p4x) * ((p2y - p1y) * p1x + (p1x - p2x) * p1y) -
           (p1x - p2x) * ((p4y - p3y) * p3x + (p3x - p4x) * p3y)) /
          ((p2y - p1y) * (p3x - p4x) - (p4y - p3y) * (p1x - p2x)) ∧
        (calculate_intersection p1x p1y p2x p2y p3x p3y p4x p4y ix0 iy0).2.2 =
          ((p2y - p1y) * ((p4y - p3y) * p3x + (p3x - p4x) * p3y) -
           (p4y - p3y) * ((p2y - p1y) * p1x + (p1x - p2x) * p1y)) /
          ((p2y - p1y) * (p3x - p4x) - (p4y - p3y) * (p1x - p2x))) := by
  intro p1x p1y p2x p2y p3x p3y p4x p4y ix0 iy0
  constructor
  · intro hdet
    simp [calculate_intersection, hdet]
  · intro hdet
    simp only [calculate_intersection]
    split_ifs with h1 h2
    · exact absurd h1 hdet
    · exact ⟨rfl, rfl⟩
    · exact ⟨rfl, rfl⟩

/-- Witness for C9 at a nonzero-determinant input where the range check
fails (the segments' supporting lines cross outside both segments). -/
theorem C9_witness :
    (calculate_intersection 0 0 1 1 10 0 10 1 7 9).2.1 =
      ((10 - 10) * ((1 - 0) * 0 + (0 - 1) * 0) -
       (0 - 1) * ((1 - 0) * 10 + (10 - 10) * 0)) /
      ((1 - 0) * (10 - 10) - (1 - 0) * (0 - 1)) ∧
    (calculate_intersection 0 0 1 1 10 0 10 1 7 9).2.2 =
      ((1 - 0) * ((1 - 0) * 10 + (10 - 10) * 0) -
       (1 - 0) * ((1 - 0) * 0 + (0 - 1) * 0)) /
      ((1 - 0) * (10 - 10) - (1 - 0) * (0 - 1)) :=
  (C9_output_slot_frame 0 0 1 1 10 0 10 1 7 9).2 (by norm_num)

/-- Evaluating `Real.sqrt` on a rational-cast perfect square. -/
lemma sqrt_ratCast_eq (q : ℚ) (r : ℝ) (h : 0 ≤ r) (hq : (q : ℝ) = r ^ 2) :
    Real.sqrt (q : ℝ) = r := by
  rw [hq, Real.sqrt_sq h]

/-- C6: `calculate_polygon_area` is nonnegative for every polygon (absolute
value of half the shoelace sum), and for the square
(0,0),(4,0),(4,4),(0,4): area 16, perimeter 16, bounding box (0,0,4,4). -/
theorem C6_area_nonneg_square_metrics :
    (∀ points : List (ℚ × ℚ), 0 ≤ calculate_polygon_area points) ∧
    calculate_polygon_area [(0,0),(4,0),(4,4),(0,4)] = 16 ∧
    calculate_polygon_perimeter [(0,0),(4,0),(4,4),(0,4)] = 16 ∧
    calculate_bounding_box [(0,0),(4,0),(4,4),(0,4)] = (0, 0, 4, 4) := by
  refine ⟨fun points => abs_nonneg _, ?_, ?_, ?_⟩
  · norm_num [calculate_polygon_area, List.range_succ]
  · have h4 : Real.sqrt ((16 : ℚ) : ℝ) = 4 :=
      sqrt_ratCast_eq 16 4 (by norm_num) (by norm_num)
    have h4r : Real.sqrt (16 : ℝ) = 4 := by
      rw [show (16 : ℝ) = 4 ^ 2 by norm_num, Real.sqrt_sq (by norm_num)]
    norm_num [calculate_polygon_perimeter,
      show List.range 4 = [0, 1, 2, 3] from rfl, h4, h4r]
  · norm_num [calculate_bounding_box]

/-- C5: `distance_to_segment` follows the claimed case analysis: `|P - V|`
when `V = W` (the zero-length check, performed before the division defining
`t`, so that division never runs with a zero divisor); otherwise, with
`t = ((P-V)·(W-V)) / |W-V|^2`, it is `|P - V|` for `t < 0`, `|P - W|` for
`t > 1`, and the distance to `V + t(W-V)` for `0 ≤ t ≤ 1`.  Concretely, the
distance from (0,5) to segment ((0,0),(10,0)) is 5, and from (-3,0) it is 3. -/
theorem C5_distance_to_segment_spec :
    (∀ px py vx vy wx wy : ℚ,
      distance_to_segment px py vx vy wx wy =
        (let t : ℚ := ((px - vx) * (wx - vx) + (py - vy) * (wy - vy)) /
            ((wx - vx) ^ 2 + (wy - vy) ^ 2)
        if vx = wx ∧ vy = wy then
          Real.sqrt (((px - vx) ^ 2 + (py - vy) ^ 2 : ℚ))
        else if t < 0 then
          Real.sqrt (((px - vx) ^ 2 + (py - vy) ^ 2 : ℚ))
        else if t > 1 then
          Real.sqrt (((px - wx) ^ 2 + (py - wy) ^ 2 : ℚ))
        else
          Real.sqrt (((px - (vx + t * (wx - vx))) ^ 2 +
                      (py - (vy + t * (wy - vy))) ^ 2 : ℚ)))) ∧
    distance_to_segment 0 5 0 0 10 0 = 5 ∧
    distance_to_segment (-3) 0 0 0 10 0 = 3 := by
  refine ⟨?_, ?_, ?_⟩
  · intro px py vx vy wx wy
    have hl : ((wx - vx) ^ 2 + (wy - vy) ^ 2) = ((vx - wx) ^ 2 + (vy - wy) ^ 2) := by
      ring
    have hiff : ((vx - wx) ^ 2 + (vy - wy) ^ 2 = 0) ↔ (vx = wx ∧ vy = wy) := by
      rw [add_eq_zero_iff_of_nonneg (sq_nonneg _) (sq_nonneg _),
        sq_eq_zero_iff, sq_eq_zero_iff, sub_eq_zero, sub_eq_zero]
    simp only [distance_to_segment, hl]
    by_cases h : (vx - wx) ^ 2 + (vy - wy) ^ 2 = 0
    · rw [if_pos h, if_pos (hiff.mp h)]
    · rw [if_neg h, if_neg (fun hc => h (hiff.mpr hc))]
  · have h25 : Real.sqrt ((25 : ℚ) : ℝ) = 5 :=
      sqrt_ratCast_eq 25 5 (by norm_num) (by norm_num)
    have h25r : Real.sqrt (25 : ℝ) = 5 := by
      rw [show (25 : ℝ) = 5 ^ 2 by norm_num, Real.sqrt_sq (by norm_num)]
    norm_num [distance_to_segment, h25, h25r]
  · have h9 : Real.sqrt ((9 : ℚ) : ℝ) = 3 :=
      sqrt_ratCast_eq 9 3 (by norm_num) (by norm_num)
    have h9r : Real.sqrt (9 : ℝ) = 3 := by
      rw [show (9 : ℝ) = 3 ^ 2 by norm_num, Real.sqrt_sq (by norm_num)]
    norm_num [distance_to_segment, h9, h9r]

/-- Index-based iteration over a list is equivalent to iteration over its
members. -/
lemma exists_index_iff_exists_mem (l : List (ℚ × ℚ)) (f : ℚ × ℚ → Bool) :
    (∃ i, i < l.length ∧ f (l.getD i (0, 0)) = true) ↔ ∃ p ∈ l, f p = true := by
  constructor
  · rintro ⟨i, hi, hP⟩
    refine ⟨l.getD i (0, 0), ?_, hP⟩
    rw [List.getD_eq_getElem l (0, 0) hi]
    exact List.getElem_mem hi
  · rintro ⟨p, hp, hP⟩
    obtain ⟨i, hi, hip⟩ := List.mem_iff_getElem.mp hp
    refine ⟨i, hi, ?_⟩
    rw [List.getD_eq_getElem l (0, 0) hi, hip]
    exact hP

/-- C2: `do_polygons_intersect` returns true iff some vertex of A is inside
B by the point-in-polygon test, or some vertex of B is inside A, or some
edge of A (vertex `i` to vertex `(i+1) % len1`) intersects some edge of B
by the segment-intersection test. -/
theorem C2_polygons_intersect_iff :
    ∀ poly1 poly2 : List (ℚ × ℚ),
      do_polygons_intersect poly1 poly2 = true ↔
        ((∃ p ∈ poly1, is_point_in_polygon p.1 p.2 poly2 = true) ∨
         (∃ p ∈ poly2, is_point_in_polygon p.1 p.2 poly1 = true) ∨
         (∃ i < poly1.length, ∃ k < poly2.length,
           (calculate_intersection
               (poly1.getD i (0, 0)).1 (poly1.getD i (0, 0)).2
               (poly1.getD ((i + 1) % poly1.length) (0, 0)).1
               (poly1.getD ((i + 1) % poly1.length) (0, 0)).2
               (poly2.getD k (0, 0)).1 (poly2.getD k (0, 0)).2
               (poly2.getD ((k + 1) % poly2.length) (0, 0)).1
               (poly2.getD ((k + 1) % poly2.length) (0, 0)).2 0 0).1 ≠ 0)) := by
  intro poly1 poly2
  simp only [do_polygons_intersect, Bool.or_eq_true, List.any_eq_true,
    List.mem_range, decide_eq_true_eq]
  rw [or_assoc]
  exact or_congr
    (exists_index_iff_exists_mem poly1 (fun p => is_point_in_polygon p.1 p.2 poly2))
    (or_congr
      (exists_index_iff_exists_mem poly2 (fun p => is_point_in_polygon p.1 p.2 poly1))
      Iff.rfl)

/-- C3: two identical (co-located) unit squares intersect; two squares
offset by more than their combined extent do not. -/
theorem C3_square_examples :
    do_polygons_intersect [(0,0),(1,0),(1,1),(0,1)] [(0,0),(1,0),(1,1),(0,1)] = true ∧
    do_polygons_intersect [(0,0),(1,0),(1,1),(0,1)]
      [(10,10),(11,10),(11,11),(10,11)] = false := by
  constructor <;>
    norm_num [do_polygons_intersect, is_point_in_polygon, edge_crossed,
      crossing_test, crossing_guard, calculate_intersection,
      show List.range 4 = [0, 1, 2, 3] from rfl, min_def, max_def]

/-- Writing the first `k` logical points into a buffer of matching length
replaces its first `k` entries. -/
lemma write_points_first (ps : List (ℚ × ℚ)) :
    ∀ (k : ℕ), k ≤ ps.length → ∀ buf : List (ℚ × ℚ), buf.length = ps.length →
      (List.range k).foldl
        (fun b i =>
          let p := ps.getD i (0, 0)
          set_point b i p.1 p.2)
        buf = ps.take k ++ buf.drop k := by
  intro k
  induction k with
  | zero =>
    intro hk buf hbuf
    simp
  | succ k ih =>
    intro hk buf hbuf
    have hk1 : k ≤ ps.length := Nat.le_of_succ_le hk
    have hklt : k < ps.length := hk
    have hkbuf : k < buf.length := by omega
    rw [List.range_succ, List.foldl_append, List.foldl_cons, List.foldl_nil,
      ih hk1 buf hbuf]
    have hlen : (ps.take k).length = k := by
      rw [List.length_take]
      omega
    show (ps.take k ++ buf.drop k).set k _ = _
    rw [List.set_append, hlen, if_neg (lt_irrefl k), Nat.sub_self,
      List.drop_eq_getElem_cons hkbuf, List.set_cons_zero,
      List.take_succ, List.getElem?_eq_getElem hklt, Option.toList_some,
      List.getD_eq_getElem ps (0, 0) hklt, List.append_assoc,
      List.singleton_append]

/-- Writing the whole logical point sequence into a buffer of the same
length reproduces the logical sequence exactly. -/
lemma write_points_id (buf ps : List (ℚ × ℚ)) (h : buf.length = ps.length) :
    write_points buf ps = ps := by
  rw [write_points, write_points_first ps ps.length le_rfl buf h,
    List.take_length, ← h, List.drop_length, List.append_nil]

/-- C8: writing N coordinate pairs at indices 0..N-1 of an N-point buffer
via `set_point` and then applying any aggregate (area, perimeter, bounding
box, point-in-polygon) gives the same result as applying it directly to the
logical point sequence, whatever the buffer's initial contents. -/
theorem C8_roundtrip (N : ℕ) (ps buf : List (ℚ × ℚ))
    (hps : ps.length = N) (hbuf : buf.length = N) :
    calculate_polygon_area (write_points buf ps) = calculate_polygon_area ps ∧
    calculate_polygon_perimeter (write_points buf ps) =
      calculate_polygon_perimeter ps ∧
    calculate_bounding_box (write_points buf ps) = calculate_bounding_box ps ∧
    ∀ x y : ℚ, is_point_in_polygon x y (write_points buf ps) =
      is_point_in_polygon x y ps := by
  have h : write_points buf ps = ps := write_points_id buf ps (by rw [hps, hbuf])
  rw [h]
  exact ⟨rfl, rfl, rfl, fun x y => rfl⟩

/-- Witness for C8 with N = 2, a junk-initialized buffer and the logical
sequence [(1,2),(3,4)]. -/
theorem C8_witness :
    calculate_polygon_area (write_points [(9,9),(9,9)] [(1,2),(3,4)]) =
      calculate_polygon_area [(1,2),(3,4)] ∧
    calculate_polygon_perimeter (write_points [(9,9),(9,9)] [(1,2),(3,4)]) =
      calculate_polygon_perimeter [(1,2),(3,4)] ∧
    calculate_bounding_box (write_points [(9,9),(9,9)] [(1,2),(3,4)]) =
      calculate_bounding_box [(1,2),(3,4)] ∧
    ∀ x y : ℚ, is_point_in_polygon x y (write_points [(9,9),(9,9)] [(1,2),(3,4)]) =
      is_point_in_polygon x y [(1,2),(3,4)] :=
  C8_roundtrip 2 [(1,2),(3,4)] [(9,9),(9,9)] rfl rfl

end PolygonOps
